import Mathlib

/-
Verification of the event-driven backtesting engine (data handler, portfolio
ledger, naive order sizing, equity-curve and drawdown analytics) against its
natural-language specification.

Conventions of the shallow embedding:
  - Python floats are modelled as exact rationals; a float NaN produced by an
    unset pandas Series cell or a skipped value is modelled as (none : Option Q).
  - Dictionaries keyed by symbol are modelled as total functions String -> _ .
  - The data-handler accessor self.bars.get_latest_bar_value(s, close) used by
    the portfolio is passed in as an explicit lookup function latest_close.
  - The shared event queue is modelled as a list; putting an item appends it.
-/

namespace TBD

/-- Signal event as constructed in event.py (SignalEvent.__init__). -/
structure SignalEvent where
  strategy_id : Nat
  symbol : String
  dt : Nat
  signal_type : String
  strength : ℚ
  cur_price : ℚ
deriving DecidableEq

/-- Order event as constructed in event.py (OrderEvent.__init__). -/
structure OrderEvent where
  symbol : String
  order_type : String
  quantity : Int
  direction : String
  est_fill_cost : ℚ
deriving DecidableEq

/-- Fill event as constructed in event.py (FillEvent.__init__), with the
commission already resolved to a rational value. -/
structure FillEvent where
  timeindex : Nat
  symbol : String
  exchange : String
  quantity : Int
  direction : String
  fill_cost : ℚ
  est_fill_cost : ℚ
  commission : ℚ
deriving DecidableEq

/-- The four event kinds carried on the queue (event.py).  MarketEvent has no
payload beyond its tag. -/
inductive Event where
  | market : Event
  | signal : SignalEvent → Event
  | order : OrderEvent → Event
  | fill : FillEvent → Event
deriving DecidableEq

/-- One OHLCV bar: the (datetime, row) pair yielded by iterrows in data.py.
Timestamps are modelled as naturals. -/
structure Bar where
  dt : Nat
  open_ : ℚ
  high : ℚ
  low : ℚ
  close : ℚ
  volume : ℚ
deriving DecidableEq

/-- One row of Portfolio.all_holdings: per-symbol market values plus datetime,
cash, commission and total_value (portfolio.py, update_timeindex hold_dict). -/
structure HoldingsSnapshot where
  dt : Nat
  sym_values : String → ℚ
  cash : ℚ
  commission : ℚ
  total_value : ℚ

/-- One row of Portfolio.all_positions (portfolio.py, update_timeindex
pos_dict). -/
structure PositionsSnapshot where
  dt : Nat
  pos : String → Int

/-- The mutable portfolio state of portfolio.py: current_positions,
current_holdings (split into its symbol part, cash, commission, total_value)
and the two append-only history lists. -/
structure PortfolioState where
  current_positions : String → Int
  sym_holdings : String → ℚ
  cash : ℚ
  commission : ℚ
  total_value : ℚ
  all_positions : List PositionsSnapshot
  all_holdings : List HoldingsSnapshot

/-- Signed direction of a fill as computed in update_positions_from_fill and
update_holdings_from_fill: BUY gives 1, SELL gives -1, anything else falls
through the if/elif chain (the source only prints a message) leaving the
initial value 0. -/
def fill_dir (direction : String) : Int :=
  if direction = "BUY" then 1 else if direction = "SELL" then -1 else 0

/-- Portfolio.update_positions_from_fill: adds fill_dir * quantity to the
current position of the fill symbol. -/
def update_positions_from_fill (st : PortfolioState) (fill : FillEvent) :
    PortfolioState :=
  { st with
    current_positions := fun s =>
      if s = fill.symbol then
        st.current_positions s + fill_dir fill.direction * fill.quantity
      else st.current_positions s }

/-- Portfolio.update_holdings_from_fill.  Note that the source recomputes the
fill cost from market data at application time
(fill_cost = self.bars.get_latest_bar_value(fill.symbol, close), line 159 of
portfolio.py); the fill_cost field carried on the FillEvent is not read.
latest_close stands for that accessor. -/
def update_holdings_from_fill (latest_close : String → ℚ) (st : PortfolioState)
    (fill : FillEvent) : PortfolioState :=
  let fdir : Int := fill_dir fill.direction
  let fill_cost : ℚ := latest_close fill.symbol
  let cost : ℚ := (fdir : ℚ) * fill_cost * (fill.quantity : ℚ)
  { st with
    sym_holdings := fun s =>
      if s = fill.symbol then st.sym_holdings s + cost else st.sym_holdings s,
    commission := st.commission + fill.commission,
    cash := st.cash - (cost + fill.commission),
    total_value := st.total_value - (cost + fill.commission) }

/-- Portfolio.update_fill: on a FILL event, update positions then holdings. -/
def update_fill (latest_close : String → ℚ) (st : PortfolioState)
    (fill : FillEvent) : PortfolioState :=
  update_holdings_from_fill latest_close (update_positions_from_fill st fill) fill

/-- Portfolio.generate_naive_order: fixed unit market quantity, four
sequential if statements each of which may overwrite the order variable that
starts as None.  est_fill_cost is cur_price * mkt_quantity where mkt_quantity
is the constant 1, also for EXIT orders whose own quantity is abs(cur_quantity). -/
def generate_naive_order (st : PortfolioState) (signal : SignalEvent) :
    Option OrderEvent :=
  let symbol := signal.symbol
  let direction := signal.signal_type
  let cur_price := signal.cur_price
  let mkt_quantity : Int := 1
  let est_fill_cost : ℚ := cur_price * (mkt_quantity : ℚ)
  let cur_quantity := st.current_positions symbol
  let order_type := "MKT"
  let order0 : Option OrderEvent := none
  let order1 := if direction = "LONG" ∧ cur_quantity = 0 then
    some ⟨symbol, order_type, mkt_quantity, "BUY", est_fill_cost⟩ else order0
  let order2 := if direction = "SHORT" ∧ cur_quantity = 0 then
    some ⟨symbol, order_type, mkt_quantity, "SELL", est_fill_cost⟩ else order1
  let order3 := if direction = "EXIT" ∧ 0 < cur_quantity then
    some ⟨symbol, order_type, |cur_quantity|, "SELL", est_fill_cost⟩ else order2
  let order4 := if direction = "EXIT" ∧ cur_quantity < 0 then
    some ⟨symbol, order_type, |cur_quantity|, "BUY", est_fill_cost⟩ else order3
  order4

/-- Portfolio.update_signal: generates the naive order and puts the result --
possibly None -- onto the shared event queue.  The returned list is the items
put on the queue. -/
def update_signal (st : PortfolioState) (signal : SignalEvent) :
    List (Option Event) :=
  [(generate_naive_order st signal).map Event.order]

/-- Loop body of update_timeindex over symbol_list: assigns the market value
(current position times latest close) of one symbol into the holdings row and
accumulates it into total_value. -/
def timeindex_step (st : PortfolioState) (latest_close : String → ℚ)
    (hd : HoldingsSnapshot) (s : String) : HoldingsSnapshot :=
  let market_value : ℚ := (st.current_positions s : ℚ) * latest_close s
  { hd with
    sym_values := fun x => if x = s then market_value else hd.sym_values x,
    total_value := hd.total_value + market_value }

/-- The holdings row built by Portfolio.update_timeindex: starts from cash,
commission and total_value = cash, then folds the per-symbol market values in.
latest_dt stands for get_latest_bar_datetime(symbol_list[0]). -/
def timeindex_snapshot (symbol_list : List String) (latest_close : String → ℚ)
    (latest_dt : Nat) (st : PortfolioState) : HoldingsSnapshot :=
  symbol_list.foldl (timeindex_step st latest_close)
    { dt := latest_dt, sym_values := fun _ => 0, cash := st.cash,
      commission := st.commission, total_value := st.cash }

/-- Portfolio.update_timeindex: appends one positions row and one holdings row
to the append-only histories. -/
def update_timeindex (symbol_list : List String) (latest_close : String → ℚ)
    (latest_dt : Nat) (st : PortfolioState) : PortfolioState :=
  { st with
    all_positions := st.all_positions ++
      [{ dt := latest_dt, pos := st.current_positions }],
    all_holdings := st.all_holdings ++
      [timeindex_snapshot symbol_list latest_close latest_dt st] }

/-- State of HistoricMinDataHandler (data.py): per-symbol forward cursor over
the reindexed rows (the iterrows generator, modelled as the list of bars not
yet consumed), the per-symbol visible history latest_symbol_data, and the
continue_backtest flag. -/
structure DataHandlerState where
  remaining : String → List Bar
  latest : String → List Bar
  continue_backtest : Bool

/-- Per-symbol body of HistoricMinDataHandler.update_bars: next() on an
exhausted cursor raises StopIteration, which the source catches by setting
continue_backtest to False; otherwise the pulled bar is appended to the
visible history of that symbol. -/
def ub_step (acc : DataHandlerState) (s : String) : DataHandlerState :=
  match acc.remaining s with
  | [] => { acc with continue_backtest := false }
  | b :: rest =>
      { acc with
        remaining := fun x => if x = s then rest else acc.remaining x,
        latest := fun x => if x = s then acc.latest x ++ [b] else acc.latest x }

/-- HistoricMinDataHandler.update_bars: pulls one bar per symbol, then puts a
MarketEvent on the queue unconditionally (data.py line 224) -- also when a
cursor was exhausted in this very call. -/
def update_bars (symbol_list : List String) (st : DataHandlerState)
    (events : List Event) : DataHandlerState × List Event :=
  (symbol_list.foldl ub_step st, events ++ [Event.market])

/-- The comb_index computation of _open_convert_csv_files (data.py lines
104-120), over the per-symbol sorted native timestamp indices.  For the first
symbol comb_index becomes that symbols index; for every later symbol the
source evaluates comb_index.union(self.symbol_data[s].index) but discards the
returned index, so comb_index is left unchanged.  All symbols are then
reindexed (forward-fill) onto this comb_index. -/
def open_convert_comb_index (symbol_list : List String)
    (native_index : String → List Nat) : Option (List Nat) :=
  symbol_list.foldl
    (fun comb s =>
      match comb with
      | none => some (native_index s)
      | some idx => some idx)
    none

/-- Engine loop counters and portfolio of Backtest (backtest.py). -/
structure EngineState where
  portfolio : PortfolioState
  signals : Nat
  orders : Nat
  fills : Nat

/-- One pass of the inner drain loop of Backtest._run_backtest (lines 78-99)
applied to one item popped from the queue.  A None item fails the
`if event is not None` guard and is skipped outright.  The external
collaborators are passed in: strategy_out is what strategy.calc_signals puts
on the queue for this market event, execute_order is the execution handler
(execution.py is not part of the analysed sources).  Returns the new engine
state and the items the handler put on the queue. -/
def dispatch_item (symbol_list : List String) (latest_close : String → ℚ)
    (latest_dt : Nat) (strategy_out : List (Option Event))
    (execute_order : OrderEvent → List (Option Event)) (eng : EngineState) :
    Option Event → EngineState × List (Option Event)
  | none => (eng, [])
  | some Event.market =>
      ({ eng with portfolio :=
          update_timeindex symbol_list latest_close latest_dt eng.portfolio },
       strategy_out)
  | some (Event.signal sig) =>
      ({ eng with signals := eng.signals + 1 },
       update_signal eng.portfolio sig)
  | some (Event.order o) =>
      ({ eng with orders := eng.orders + 1 }, execute_order o)
  | some (Event.fill f) =>
      ({ eng with
         fills := eng.fills + 1,
         portfolio := update_fill latest_close eng.portfolio f }, [])

/-- Tail of pandas pct_change: each output is (x - prev) / prev. -/
def pct_change_aux (prev : ℚ) : List ℚ → List (Option ℚ)
  | [] => []
  | x :: tl => some ((x - prev) / prev) :: pct_change_aux x tl

/-- pandas Series.pct_change as used on the total_value column: the first
entry has no predecessor and is NaN (none). -/
def pct_change : List ℚ → List (Option ℚ)
  | [] => []
  | x :: tl => none :: pct_change_aux x tl

/-- pandas Series.cumprod with its default skipna=True: NaN entries stay NaN
in the output and do not advance the running product. -/
def cumprod_skipna (acc : ℚ) : List (Option ℚ) → List (Option ℚ)
  | [] => []
  | none :: tl => none :: cumprod_skipna acc tl
  | some x :: tl => some (acc * x) :: cumprod_skipna (acc * x) tl

/-- The equity_curve column produced from a total_value column:
(1.0 + pct_change(total_value)).cumprod() (portfolio.py lines 220-221). -/
def equity_curve_of (total_values : List ℚ) : List (Option ℚ) :=
  cumprod_skipna 1 ((pct_change total_values).map (Option.map (fun r => 1 + r)))

/-- Portfolio.create_equity_curve_dataframe, restricted to the equity_curve
column it computes from the all_holdings history. -/
def create_equity_curve_dataframe (st : PortfolioState) : List (Option ℚ) :=
  equity_curve_of (st.all_holdings.map (fun h => h.total_value))

/-- Combine step of a NaN-skipping maximum. -/
def max_step (acc x : Option ℚ) : Option ℚ :=
  match acc, x with
  | none, y => y
  | some a, none => some a
  | some a, some b => some (max a b)

/-- pandas Series.max with default skipna=True: NaN entries are ignored, the
maximum of an all-NaN series is NaN. -/
def maxSkipNA (xs : List (Option ℚ)) : Option ℚ :=
  xs.foldl max_step none

/-- Loop of create_drawdowns (performance.py lines 41-44) over pnl[1..]:
hwm[t] = max(hwm[t-1], pnl[t]) (Python max keeps its first argument when the
second is NaN), drawdown[t] = hwm[t] - pnl[t] (NaN when pnl[t] is NaN),
duration[t] = 0 if drawdown[t] == 0 else duration[t-1] + 1 (a NaN comparison
is False, and NaN + 1 stays NaN, so an undefined previous duration
propagates).  Returns the drawdown and duration lists for indices 1 and up. -/
def dd_aux (hwm_prev : ℚ) (dur_prev : Option ℚ) :
    List (Option ℚ) → List (Option ℚ) × List (Option ℚ)
  | [] => ([], [])
  | none :: tl =>
      let dur_t : Option ℚ := Option.map (fun d => d + 1) dur_prev
      let rest := dd_aux hwm_prev dur_t tl
      (none :: rest.1, dur_t :: rest.2)
  | some x :: tl =>
      let hwm_t : ℚ := max hwm_prev x
      let dd_t : ℚ := hwm_t - x
      let dur_t : Option ℚ :=
        if dd_t = 0 then some 0 else Option.map (fun d => d + 1) dur_prev
      let rest := dd_aux hwm_t dur_t tl
      (some dd_t :: rest.1, dur_t :: rest.2)

/-- create_drawdowns (performance.py): hwm is seeded with [0]; the drawdown
and duration Series are created over the full index with every cell NaN and
the loop only assigns indices 1 and up, so index 0 of both outputs stays NaN
(none).  Returns (drawdown series, drawdown.max(), duration.max()). -/
def create_drawdowns (pnl : List (Option ℚ)) :
    List (Option ℚ) × Option ℚ × Option ℚ :=
  match pnl with
  | [] => ([], none, none)
  | _ :: tl =>
      let r := dd_aux 0 none tl
      (none :: r.1, maxSkipNA (none :: r.1), maxSkipNA (none :: r.2))

/-- The annualization factor lookup inside create_sharpe_ratio
(performance.py lines 10-18): n starts as None and is only assigned for the
three recognized presets; for any other value the source prints a message and
leaves n as None, so the following np.sqrt(n) raises a TypeError.  The raised
error is modelled as none. -/
def annualization_factor (periods : String) : Option ℚ :=
  if periods = "daily" then some 252
  else if periods = "hourly" then some (252 * 6.5)
  else if periods = "minutely" then some (252 * 6.5 * 60)
  else none

/-- np.mean of a list of floats, as an exact rational-to-real idealization. -/
noncomputable def np_mean (rs : List ℝ) : ℝ := rs.sum / (rs.length : ℝ)

/-- np.std (population standard deviation, ddof = 0). -/
noncomputable def np_std (rs : List ℝ) : ℝ :=
  Real.sqrt ((rs.map (fun x => (x - np_mean rs) ^ 2)).sum / (rs.length : ℝ))

/-- create_sharpe_ratio (performance.py): np.sqrt(n) * (mean / std) when the
periods preset is recognized, an error (none) otherwise. -/
noncomputable def create_sharpe_ratio (rs : List ℝ) (periods : String) :
    Option ℝ :=
  (annualization_factor periods).map
    (fun n => Real.sqrt (n : ℝ) * (np_mean rs / np_std rs))

/-- Running high-water mark written as the recurrence of the specification:
hwm[t] = max(hwm[t-1], equity[t]). -/
def hwmSeq (prev : ℚ) : List ℚ → List ℚ
  | [] => []
  | x :: tl => max prev x :: hwmSeq (max prev x) tl

/-- Duration recurrence of the specification, carried over the drawdown
values: duration[t] = 0 if drawdown[t] == 0 else duration[t-1] + 1, with an
undefined (NaN) previous duration propagating through the addition. -/
def durSeq (dur_prev : Option ℚ) : List (Option ℚ) → List (Option ℚ)
  | [] => []
  | d :: tl =>
      let c : Option ℚ :=
        if d = some 0 then some 0 else Option.map (fun x => x + 1) dur_prev
      c :: durSeq c tl

/-- Fixture: a market-data lookup whose latest close is 10 for every symbol. -/
def cl1 : String → ℚ := fun _ => 10

/-- Fixture: a freshly constructed portfolio with no positions, cash 1000 and
empty histories. -/
def st0 : PortfolioState :=
  { current_positions := fun _ => 0
    sym_holdings := fun _ => 0
    cash := 1000
    commission := 0
    total_value := 1000
    all_positions := []
    all_holdings := [] }

/-- Fixture: a BUY fill of quantity 1 whose own fill_cost field is 999,
commission 0. -/
def fill1 : FillEvent :=
  { timeindex := 0, symbol := "A", exchange := "BT", quantity := 1,
    direction := "BUY", fill_cost := 999, est_fill_cost := 10, commission := 0 }

/-- Fixture: a fill with the unrecognized direction HOLD and commission 5. -/
def fill8 : FillEvent :=
  { timeindex := 0, symbol := "A", exchange := "BT", quantity := 3,
    direction := "HOLD", fill_cost := 50, est_fill_cost := 50, commission := 5 }

/-- Fixture: a portfolio holding 2 units of every symbol. -/
def stPos2 : PortfolioState := { st0 with current_positions := fun _ => 2 }

/-- Fixture: a portfolio holding 1 unit of every symbol. -/
def stPos1 : PortfolioState := { st0 with current_positions := fun _ => 1 }

/-- Fixture: an EXIT signal at reference price 10. -/
def sigE : SignalEvent :=
  { strategy_id := 1, symbol := "A", dt := 0, signal_type := "EXIT",
    strength := 1, cur_price := 10 }

/-- Fixture: a LONG signal at reference price 7. -/
def sigL : SignalEvent :=
  { strategy_id := 1, symbol := "A", dt := 0, signal_type := "LONG",
    strength := 1, cur_price := 7 }

/-- Fixture: a single bar. -/
def bar0 : Bar := { dt := 0, open_ := 10, high := 10, low := 10, close := 10,
                    volume := 100 }

/-- Fixture: a data handler whose cursors are all exhausted while one bar is
already visible. -/
def stExh : DataHandlerState :=
  { remaining := fun _ => [], latest := fun _ => [bar0],
    continue_backtest := true }

/-- Fixture: native timestamp indices for two symbols; symbol B has a
timestamp (3) that symbol A lacks. -/
def d4 : String → List Nat :=
  fun s => if s = "A" then [1, 2] else if s = "B" then [1, 3] else []

/-- Fixture: a holdings history of two rows with constant total_value 10000,
as produced by a run in which no fill ever changes the ledger. -/
def stC6 : PortfolioState :=
  { st0 with
    all_holdings :=
      [{ dt := 0, sym_values := fun _ => 0, cash := 10000, commission := 0,
         total_value := 10000 },
       { dt := 1, sym_values := fun _ => 0, cash := 10000, commission := 0,
         total_value := 10000 }] }

/-- Fixture: an engine over stPos1 with all counters 0. -/
def eng0 : EngineState :=
  { portfolio := stPos1, signals := 0, orders := 0, fills := 0 }

/-- C1 counterexample: applying the BUY fill fill1 (whose own fill_cost field
is 999) at a state with cash 1000 while the latest close is 10 leaves cash
990: the deduction uses the recomputed close 10, whereas the formula of the
claim, delta times the fill_cost carried on the event, would leave cash 1. -/
theorem C1_counterexample :
    (update_holdings_from_fill cl1 st0 fill1).cash = 990 ∧
    st0.cash - ((1 : ℚ) * fill1.fill_cost * (fill1.quantity : ℚ)
      + fill1.commission) = 1 ∧
    (990 : ℚ) ≠ 1 := by
  refine ⟨?_, ?_, by norm_num⟩ <;>
    norm_num [update_holdings_from_fill, fill_dir, cl1, st0, fill1]

/-- C1 amended: for a Fill with direction BUY or SELL, update_holdings_from_fill
deducts delta_direction times the LATEST CLOSE of the fill symbol (recomputed
from market data at application time) times quantity, plus commission; the
fill_cost field carried on the Fill event is not used. -/
theorem C1_amended (cl : String → ℚ) (st : PortfolioState) (f : FillEvent)
    (h : f.direction = "BUY" ∨ f.direction = "SELL") :
    (update_holdings_from_fill cl st f).cash =
      st.cash - ((if f.direction = "BUY" then (1 : ℚ) else -1) * cl f.symbol
        * (f.quantity : ℚ) + f.commission) := by
  rcases h with h | h <;>
    simp [update_holdings_from_fill, fill_dir, h]

/-- C1 witness: the amended statement evaluated on the fixture fill. -/
theorem C1_witness :
    (update_holdings_from_fill cl1 st0 fill1).cash =
      st0.cash - ((if fill1.direction = "BUY" then (1 : ℚ) else -1)
        * cl1 fill1.symbol * (fill1.quantity : ℚ) + fill1.commission) :=
  C1_amended cl1 st0 fill1 (Or.inl rfl)

/-- The update_timeindex fold never changes the cash cell of the holdings row. -/
theorem timeindex_fold_cash (st : PortfolioState) (cl : String → ℚ) :
    ∀ (l : List String) (hd : HoldingsSnapshot),
      (List.foldl (timeindex_step st cl) hd l).cash = hd.cash := by
  intro l
  induction l with
  | nil => intro hd; rfl
  | cons s tl ih => intro hd; simpa using ih (timeindex_step st cl hd s)

/-- The update_timeindex fold adds exactly the per-symbol market values to the
total_value cell of the holdings row. -/
theorem timeindex_fold_total (st : PortfolioState) (cl : String → ℚ) :
    ∀ (l : List String) (hd : HoldingsSnapshot),
      (List.foldl (timeindex_step st cl) hd l).total_value =
        hd.total_value +
          (l.map (fun s => (st.current_positions s : ℚ) * cl s)).sum := by
  intro l
  induction l with
  | nil => intro hd; simp
  | cons s tl ih =>
      intro hd
      simp only [List.foldl_cons, List.map_cons, List.sum_cons, ih]
      simp [timeindex_step]
      ring

/-- C2: every holdings snapshot appended by a Market-event update satisfies
ledger conservation: its total_value equals its cash plus the sum over the
symbol list of the current position quantity times that symbols latest close.
In this exact rational model the identity is exact, hence within any relative
floating tolerance. -/
theorem C2_ledger_conservation (syms : List String) (cl : String → ℚ)
    (dtv : Nat) (st : PortfolioState) :
    (update_timeindex syms cl dtv st).all_holdings =
      st.all_holdings ++ [timeindex_snapshot syms cl dtv st] ∧
    (timeindex_snapshot syms cl dtv st).total_value =
      (timeindex_snapshot syms cl dtv st).cash +
        (syms.map (fun s => (st.current_positions s : ℚ) * cl s)).sum := by
  refine ⟨rfl, ?_⟩
  rw [timeindex_snapshot, timeindex_fold_total, timeindex_fold_cash]

/-- C8 counterexample: applying the HOLD-direction fill fill8 (commission 5)
at a state with cash 1000 silently moves cash to 995: the ledger IS modified
and no error is raised, contradicting the claim that such an event fails
fatally without touching the ledger. -/
theorem C8_counterexample :
    (update_fill cl1 st0 fill8).cash = 995 ∧ (995 : ℚ) ≠ st0.cash := by
  constructor
  · simp [update_fill, update_holdings_from_fill, update_positions_from_fill,
      fill_dir, cl1, st0, fill8]
    norm_num
  · norm_num [st0]

/-- C8 amended: a Fill whose direction is neither BUY nor SELL is processed
without raising: the signed delta is 0 so positions and per-symbol holdings
are unchanged, but the commission is still accrued and deducted from cash
(the source only prints a console message and continues). -/
theorem C8_amended (cl : String → ℚ) (st : PortfolioState) (f : FillEvent)
    (h1 : f.direction ≠ "BUY") (h2 : f.direction ≠ "SELL") :
    (update_fill cl st f).current_positions = st.current_positions ∧
    (update_fill cl st f).sym_holdings = st.sym_holdings ∧
    (update_fill cl st f).cash = st.cash - f.commission ∧
    (update_fill cl st f).commission = st.commission + f.commission := by
  have hd : fill_dir f.direction = 0 := by simp [fill_dir, h1, h2]
  refine ⟨funext fun s => ?_, funext fun s => ?_, ?_, ?_⟩ <;>
    simp [update_fill, update_holdings_from_fill, update_positions_from_fill,
      hd]

/-- C8 witness: the amended statement evaluated on the HOLD fill fixture. -/
theorem C8_witness :
    (update_fill cl1 st0 fill8).current_positions = st0.current_positions ∧
    (update_fill cl1 st0 fill8).sym_holdings = st0.sym_holdings ∧
    (update_fill cl1 st0 fill8).cash = st0.cash - fill8.commission ∧
    (update_fill cl1 st0 fill8).commission = st0.commission + fill8.commission :=
  C8_amended cl1 st0 fill8 (by decide) (by decide)

/-- C5 counterexample: an EXIT signal at reference price 10 with a current
position of 2 generates a SELL order of quantity 2 whose est_fill_cost is 10
(reference price times the constant unit quantity 1), not reference price
times the order quantity (which would be 20). -/
theorem C5_counterexample :
    generate_naive_order stPos2 sigE =
      some { symbol := "A", order_type := "MKT", quantity := 2,
             direction := "SELL", est_fill_cost := 10 } ∧
    sigE.cur_price * ((2 : Int) : ℚ) ≠ 10 := by
  constructor
  · simp [generate_naive_order, stPos2, sigE, st0]
  · norm_num [sigE]

/-- C5 amended: generate_naive_order follows the four sizing rules of the
claim (LONG and flat gives BUY 1, SHORT and flat gives SELL 1, EXIT against a
positive position gives SELL abs(qty), EXIT against a negative position gives
BUY abs(qty), anything else gives no order), but every generated order carries
est_fill_cost = reference price * 1 (the constant unit market quantity), also
for EXIT orders whose own quantity is abs(current quantity). -/
theorem C5_amended (st : PortfolioState) (sig : SignalEvent) :
    (sig.signal_type = "LONG" → st.current_positions sig.symbol = 0 →
      generate_naive_order st sig =
        some ⟨sig.symbol, "MKT", 1, "BUY", sig.cur_price * 1⟩) ∧
    (sig.signal_type = "SHORT" → st.current_positions sig.symbol = 0 →
      generate_naive_order st sig =
        some ⟨sig.symbol, "MKT", 1, "SELL", sig.cur_price * 1⟩) ∧
    (sig.signal_type = "EXIT" → 0 < st.current_positions sig.symbol →
      generate_naive_order st sig =
        some ⟨sig.symbol, "MKT", |st.current_positions sig.symbol|, "SELL",
          sig.cur_price * 1⟩) ∧
    (sig.signal_type = "EXIT" → st.current_positions sig.symbol < 0 →
      generate_naive_order st sig =
        some ⟨sig.symbol, "MKT", |st.current_positions sig.symbol|, "BUY",
          sig.cur_price * 1⟩) ∧
    ((sig.signal_type ≠ "LONG" ∨ st.current_positions sig.symbol ≠ 0) →
     (sig.signal_type ≠ "SHORT" ∨ st.current_positions sig.symbol ≠ 0) →
     (sig.signal_type ≠ "EXIT" ∨ st.current_positions sig.symbol = 0) →
      generate_naive_order st sig = none) := by
  refine ⟨?_, ?_, ?_, ?_, ?_⟩
  · intro h1 h2; simp [generate_naive_order, h1, h2]
  · intro h1 h2; simp [generate_naive_order, h1, h2]
  · intro h1 h2; simp [generate_naive_order, h1, h2, asymm h2]
  · intro h1 h2; simp [generate_naive_order, h1, h2]
  · intro hL hS hE
    rcases hL with hL | hL <;> rcases hS with hS | hS <;>
      rcases hE with hE | hE <;>
      simp_all [generate_naive_order]

/-- C5 witness: the amended statement (LONG rule) on the flat fixture. -/
theorem C5_witness :
    generate_naive_order st0 sigL =
      some ⟨sigL.symbol, "MKT", 1, "BUY", sigL.cur_price * 1⟩ :=
  (C5_amended st0 sigL).1 rfl rfl

/-- Folding the update_bars step over symbols whose cursors are all exhausted
only clears the continue_backtest flag; cursors and visible histories are
untouched. -/
theorem ub_fold_exhausted (tl : List String) :
    ∀ (acc : DataHandlerState), (∀ s ∈ tl, acc.remaining s = []) →
      List.foldl ub_step acc tl =
        if tl = [] then acc else { acc with continue_backtest := false } := by
  induction tl with
  | nil => intro acc _; simp
  | cons x xs ih =>
      intro acc h
      have hx : acc.remaining x = [] := h x (by simp)
      have hstep : ub_step acc x = { acc with continue_backtest := false } := by
        simp [ub_step, hx]
      have h2 : ∀ s ∈ xs,
          ({ acc with continue_backtest := false } :
            DataHandlerState).remaining s = [] :=
        fun s hs => h s (List.mem_cons_of_mem _ hs)
      rw [List.foldl_cons, hstep, ih _ h2,
        if_neg (by simp : ¬(x :: xs = []))]
      split <;> rfl

/-- C3 counterexample: calling update_bars with every cursor exhausted sets
continue_backtest to false but STILL puts a MarketEvent on the queue; the
claim asserts no Market event is emitted for the exhausted step. -/
theorem C3_counterexample :
    (update_bars ["A"] stExh []).1.continue_backtest = false ∧
    (update_bars ["A"] stExh []).2 = [Event.market] := by
  exact ⟨rfl, rfl⟩

/-- C3 amended: when the bar stream is exhausted, update_bars signals
termination (continue_backtest becomes false), leaves the cursors and the
visible histories unchanged, and every subsequent call again reports
exhaustion without erroring -- but each call, including the exhausted one,
still puts one MarketEvent on the queue; the engine loop stops because it
checks continue_backtest before the next call. -/
theorem C3_amended (syms : List String) (st : DataHandlerState)
    (q : List Event) (hne : syms ≠ [])
    (hex : ∀ s ∈ syms, st.remaining s = []) :
    update_bars syms st q =
      ({ st with continue_backtest := false }, q ++ [Event.market]) ∧
    update_bars syms { st with continue_backtest := false }
        (q ++ [Event.market]) =
      ({ st with continue_backtest := false },
        q ++ [Event.market] ++ [Event.market]) := by
  have h1 := ub_fold_exhausted syms st hex
  have h2 := ub_fold_exhausted syms { st with continue_backtest := false }
    (fun s hs => hex s hs)
  rw [if_neg hne] at h1 h2
  exact ⟨by simp [update_bars, h1], by simp [update_bars, h2]⟩

/-- C3 witness: the amended statement on the exhausted fixture handler. -/
theorem C3_witness :
    update_bars ["A"] stExh [] =
      ({ stExh with continue_backtest := false }, [] ++ [Event.market]) :=
  (C3_amended ["A"] stExh [] (by simp) (fun s _ => rfl)).1

/-- C4 failing input: with symbols A (timestamps 1,2) and B (timestamps 1,3),
the comb_index computed by _open_convert_csv_files is As index [1,2] -- the
union with Bs index is computed but its result is discarded -- so the shared
index does not contain timestamp 3 although it appears in Bs source data.
The spec requires the union of all native timestamps. -/
theorem C4_failing_input :
    open_convert_comb_index ["A", "B"] d4 = some [1, 2] ∧
    3 ∈ d4 "B" ∧
    3 ∉ (open_convert_comb_index ["A", "B"] d4).getD [] := by
  refine ⟨by decide, by decide, by decide⟩

/-- The single-pass drawdown loop equals the two independent recurrences of
the specification: the high-water-mark sequence and, over the resulting
drawdown values, the duration sequence. -/
theorem dd_aux_spec (qs : List ℚ) :
    ∀ (hp : ℚ) (dp : Option ℚ),
      dd_aux hp dp (qs.map some) =
        (List.zipWith (fun h x => some (h - x)) (hwmSeq hp qs) qs,
         durSeq dp (List.zipWith (fun h x => some (h - x)) (hwmSeq hp qs) qs)) := by
  induction qs with
  | nil => intro hp dp; rfl
  | cons x tl ih =>
      intro hp dp
      simp only [List.map_cons, dd_aux, hwmSeq, List.zipWith_cons_cons,
        durSeq, ih, Option.some.injEq]

/-- C7 counterexample: on the equity sequence [1, 1] the drawdown series
returned by create_drawdowns is [NaN, 0]: its seed entry at index 0 is an
unset (NaN) cell, not the 0 required by the claim. -/
theorem C7_counterexample :
    (create_drawdowns [some 1, some 1]).1 = [none, some 0] ∧
    (none : Option ℚ) ≠ some 0 := by
  refine ⟨?_, by simp⟩
  simp [create_drawdowns, dd_aux]

/-- C7 amended: for every equity sequence (arbitrary entry at index 0,
numeric entries from index 1 on), create_drawdowns returns the drawdown
series whose entries for t at least 1 follow hwm[t] = max(hwm[t-1], equity[t])
with hwm[0] = 0 and drawdown[t] = hwm[t] - equity[t], together with its
maximum and the maximum duration (both ignoring NaN cells), where
duration[t] = 0 if drawdown[t] = 0 else duration[t-1] + 1 -- BUT the seed
entries drawdown[0] and duration[0] are unset NaN cells rather than 0, and
the undefined duration seed propagates through the +1 branch. -/
theorem C7_amended (q0 : Option ℚ) (qs : List ℚ) :
    create_drawdowns (q0 :: qs.map some) =
      (none :: List.zipWith (fun h x => some (h - x)) (hwmSeq 0 qs) qs,
       maxSkipNA (none ::
         List.zipWith (fun h x => some (h - x)) (hwmSeq 0 qs) qs),
       maxSkipNA (none :: durSeq none
         (List.zipWith (fun h x => some (h - x)) (hwmSeq 0 qs) qs))) := by
  simp [create_drawdowns, dd_aux_spec qs 0 none]

/-- pct_change of a constant series is 0 from the second entry on. -/
theorem pct_aux_const (c : ℚ) :
    ∀ k, pct_change_aux c (List.replicate k c) = List.replicate k (some 0) := by
  intro k
  induction k with
  | zero => rfl
  | succ m ih => simp [List.replicate_succ, pct_change_aux, ih]

/-- The NaN-skipping cumulative product of all-ones is all-ones. -/
theorem cumprod_ones :
    ∀ k, cumprod_skipna 1 (List.replicate k (some 1)) =
      List.replicate k (some (1 : ℚ)) := by
  intro k
  induction k with
  | zero => rfl
  | succ m ih => simp [List.replicate_succ, cumprod_skipna, ih]

/-- The drawdown loop on an all-ones tail with high-water mark already 1
produces all-zero drawdowns and durations. -/
theorem dd_aux_ones :
    ∀ k, dd_aux 1 (some 0) (List.replicate k (some (1 : ℚ))) =
      (List.replicate k (some 0), List.replicate k (some 0)) := by
  intro k
  induction k with
  | zero => rfl
  | succ m ih => simp [List.replicate_succ, dd_aux, ih]

/-- The NaN-skipping maximum of zeros stays zero. -/
theorem max_step_fold_zeros :
    ∀ k, List.foldl max_step (some 0) (List.replicate k (some (0 : ℚ))) =
      some 0 := by
  intro k
  induction k with
  | zero => rfl
  | succ m ih => simp [List.replicate_succ, max_step, ih]

/-- C6 counterexample: on a two-row holdings history with constant
total_value 10000, the materialized equity curve is [NaN, 1]: its first entry
is the NaN produced by pct_change on the seed row, not the 1.0 the claim
asserts. -/
theorem C6_counterexample :
    create_equity_curve_dataframe stC6 = [none, some 1] ∧
    (none : Option ℚ) ≠ some 1 := by
  refine ⟨?_, by simp⟩
  simp [create_equity_curve_dataframe, stC6, st0, equity_curve_of, pct_change,
    pct_change_aux, cumprod_skipna]

/-- C6 amended: the equity curve is the NaN-skipping cumulative product of
(1 + per-step percentage return of total_value) whose FIRST entry is NaN (the
seed row has no previous value), with baseline 1.0 from the second entry on;
for a run with zero signals the total_value column is constant (and nonzero,
as it starts from the initial capital), every later equity entry is exactly
1.0, and the maximum drawdown of that equity series is 0.  The hypothesis
c different from 0 marks the domain on which the exact rational model agrees
with pandas, which would produce NaN returns on a zero total_value. -/
theorem C6_amended (c : ℚ) (n : ℕ) (_hc : c ≠ 0) :
    equity_curve_of (List.replicate (n + 2) c) =
      none :: List.replicate (n + 1) (some 1) ∧
    (create_drawdowns (none :: List.replicate (n + 1) (some 1))).2.1 =
      some 0 := by
  constructor
  · rw [equity_curve_of, List.replicate_succ]
    simp only [pct_change, pct_aux_const c (n + 1), List.map_cons,
      List.map_replicate, Option.map_some', Option.map_none', add_zero]
    simp [cumprod_skipna, cumprod_ones]
    rw [List.replicate_succ]
  · rw [List.replicate_succ]
    simp only [create_drawdowns, dd_aux]
    norm_num [dd_aux_ones]
    simp [maxSkipNA, max_step, List.foldl_cons, max_step_fold_zeros]

/-- C6 witness: the amended statement at constant total_value 10000 over a
two-row history. -/
theorem C6_witness :
    equity_curve_of (List.replicate 2 (10000 : ℚ)) =
      none :: List.replicate 1 (some 1) ∧
    (create_drawdowns (none :: List.replicate 1 (some (1 : ℚ)))).2.1 =
      some 0 :=
  C6_amended 10000 0 (by norm_num)

/-- C9: create_sharpe_ratio errors (np.sqrt of the unassigned None raises,
modelled as none) for every periods value outside the three recognized
presets instead of falling back to a default annualization factor, and for
the preset daily it returns sqrt(252) times mean over population standard
deviation of the returns. -/
theorem C9_sharpe :
    (∀ (rs : List ℝ) (p : String), p ≠ "daily" → p ≠ "hourly" →
      p ≠ "minutely" → create_sharpe_ratio rs p = none) ∧
    (∀ rs : List ℝ, create_sharpe_ratio rs "daily" =
      some (Real.sqrt 252 * (np_mean rs / np_std rs))) := by
  constructor
  · intro rs p h1 h2 h3
    simp [create_sharpe_ratio, annualization_factor, h1, h2, h3]
  · intro rs
    norm_num [create_sharpe_ratio, annualization_factor]

/-- C9 witness: the unrecognized preset weekly errors on a concrete series. -/
theorem C9_witness : create_sharpe_ratio [(1 : ℝ)] "weekly" = none :=
  C9_sharpe.1 [1] "weekly" (by decide) (by decide) (by decide)

/-- C10: a Signal whose direction/position combination matches no sizing rule
makes update_signal put None on the queue (the SIGNAL dispatch only bumps the
signals counter), and the dispatch loop skips a popped None item outright, so
the portfolio state and the order/fill counters are unchanged and the run
does not abort. -/
theorem C10_none_skip (syms : List String) (cl : String → ℚ) (dtv : Nat)
    (strat : List (Option Event)) (execO : OrderEvent → List (Option Event))
    (eng : EngineState) (sig : SignalEvent)
    (h : generate_naive_order eng.portfolio sig = none) :
    dispatch_item syms cl dtv strat execO eng (some (Event.signal sig)) =
      ({ eng with signals := eng.signals + 1 }, [none]) ∧
    dispatch_item syms cl dtv strat execO eng none = (eng, []) := by
  refine ⟨?_, rfl⟩
  simp [dispatch_item, update_signal, h]

/-- C10 witness: a LONG signal against an existing position of 1 matches no
rule; dispatching it and then the None it enqueued changes nothing but the
signals counter. -/
theorem C10_witness :
    dispatch_item ["A"] cl1 0 [] (fun _ => []) eng0
        (some (Event.signal sigL)) =
      ({ eng0 with signals := eng0.signals + 1 }, [none]) ∧
    dispatch_item ["A"] cl1 0 [] (fun _ => []) eng0 none = (eng0, []) :=
  C10_none_skip ["A"] cl1 0 [] (fun _ => []) eng0 sigL
    (by simp [generate_naive_order, eng0, stPos1, st0, sigL])

end TBD
